import Mathlib

/-!
Verification of the ARIA personal-assistant reasoning core
(`python-engine/agent.py`), shallowly embedded in Lean 4.

Python strings are modelled as Lean `String`; Python floats as `ℚ`;
Python dicts either as structures with the dict's default values or as
association lists.  Database connections and the model backend are
modelled as explicit oracle functions passed to the embedded
definitions, so that "the code executed the query" is visible as the
result depending on the oracle.  Character-level operations
(`upper`, `lower`, `strip`, `split`) are modelled for the ASCII
fragment the guarded strings live in.
-/

namespace Aria

/-! ## Python string primitives -/

/-- Characters Python's `str.strip()` / `str.split()` treat as whitespace
(ASCII fragment: space, tab, newline, carriage return, vertical tab, form feed). -/
def pyIsSpace (c : Char) : Bool :=
  c = ' ' || c = '\t' || c = '\n' || c = '\r' || c = '\x0b' || c = '\x0c'

/-- Python `str.strip()` (no argument): drop whitespace from both ends. -/
def pyStrip (s : String) : String :=
  ((s.toList.dropWhile pyIsSpace).reverse.dropWhile pyIsSpace).reverse.asString

/-- Python `str.upper()` on the ASCII fragment. -/
def pyUpper (s : String) : String :=
  (s.toList.map Char.toUpper).asString

/-- Python `str.lower()` on the ASCII fragment. -/
def pyLower (s : String) : String :=
  (s.toList.map Char.toLower).asString

/-- `s.startswith(pre)`. -/
def pyStartsWith (s pre : String) : Bool :=
  pre.toList.isPrefixOf s.toList

/-- Split a character list at every character satisfying `p`, keeping
empty pieces (as `re.split` / `str.split(sep)` do). -/
def splitChars (p : Char → Bool) : List Char → List Char → List (List Char)
  | [], acc => [acc.reverse]
  | c :: rest, acc =>
      if p c then acc.reverse :: splitChars p rest []
      else splitChars p rest (c :: acc)

/-- Split a string at every character satisfying `p`. -/
def splitOn (p : Char → Bool) (s : String) : List String :=
  (splitChars p s.toList []).map List.asString

/-- Python `str.split()` with no argument: split on whitespace runs,
discarding empty pieces. -/
def pySplitWs (s : String) : List String :=
  (splitOn pyIsSpace s).filter (fun w => w ≠ "")

/-- Insertion sort on strings, for Python's `sorted(...)`. -/
def insertStr (a : String) : List String → List String
  | [] => [a]
  | b :: bs => if a ≤ b then a :: b :: bs else b :: insertStr a bs

/-- `sorted(...)` on a list of strings. -/
def sortStrings (l : List String) : List String :=
  l.foldr insertStr []

/-! ## SQL Guard — `_execute_sql` (agent.py lines 610-647) -/

/-- A database row: column name / rendered value pairs. -/
abbrev Row := List (String × String)

/-- Outcome of actually running a query on the SQLite connection
(the `conn.execute` / `fetchall` part, which the embedding abstracts
as an oracle): either the fetched rows or the text of the raised
exception. -/
inductive ExecResult where
  | ok (rows : List Row)
  | err (msg : String)
deriving DecidableEq, Repr

/-- Mirror of the dict `_execute_sql` returns:
`{"rows": ..}` plus optional `"error"`, `"total"`, `"truncated"` keys. -/
structure SqlResult where
  rows : List Row
  error : Option String := none
  total : Option Nat := none
  truncated : Bool := false
deriving DecidableEq, Repr

/-- `_ALLOWED_TABLES` (agent.py lines 594-601): tables the LLM may query.
Declared in the source next to the guard; `settings` is excluded. -/
def _ALLOWED_TABLES : List String :=
  ["transactions", "spend_log", "email_cache", "reminders", "habits", "habit_log",
   "focus_sessions", "calendar_events", "subscriptions", "behavior_metrics", "notes",
   "budget_limits", "chat_messages", "context_threads", "context_entities", "ai_memory",
   "task_timeline", "signal_log", "task_time_data", "relationship_contacts",
   "relationship_interactions", "context_links", "outcome_log"]

/-- `_SQL_BLOCKED_TOKENS`: tokens that must never appear in LLM-generated SQL. -/
def _SQL_BLOCKED_TOKENS : List String :=
  ["DROP", "DELETE", "INSERT", "UPDATE", "ALTER", "CREATE", "TRUNCATE",
   "UNION", "PRAGMA", "ATTACH", "DETACH", "VACUUM", "REINDEX", "LOAD_EXTENSION"]

/-- The delimiter class of `re.split(r'[\s;(),\[\]]+', sql_upper)`. -/
def sqlDelim (c : Char) : Bool :=
  pyIsSpace c || c = ';' || c = '(' || c = ')' || c = ',' || c = '[' || c = ']'

/-- Step 2 of the guard: tokenise the uppercased SQL on whitespace and
common SQL punctuation and discard the empty string (the `tokens` set). -/
def sqlTokens (sql_upper : String) : List String :=
  (splitOn sqlDelim sql_upper).filter (fun t => t ≠ "")

/-- The blocked keywords present among the query's tokens
(`blocked = tokens & _SQL_BLOCKED_TOKENS`). -/
def blockedIn (tokens : List String) : List String :=
  _SQL_BLOCKED_TOKENS.filter (fun t => t ∈ tokens)

/-- The guard's reject decision, exactly the three checks of
`_execute_sql` in order: not `SELECT`/`WITH`, a blocked keyword token,
or the `SETTINGS` token. -/
def guardRejects (sql : String) : Bool :=
  let sql_upper := pyUpper (pyStrip sql)
  if ¬ (pyStartsWith sql_upper "SELECT" || pyStartsWith sql_upper "WITH") then true
  else
    let tokens := sqlTokens sql_upper
    if blockedIn tokens ≠ [] then true
    else if "SETTINGS" ∈ tokens then true
    else false

/-- The post-execution part of `_execute_sql`: cap output at 50 rows and
flag truncation, and turn a raised exception into `{"error": str(e), "rows": []}`. -/
def wrapExec : ExecResult → SqlResult
  | .ok rows =>
      if rows.length > 50 then
        { rows := rows.take 50, total := some rows.length, truncated := true }
      else
        { rows := rows, total := some rows.length }
  | .err e => { rows := [], error := some e }

/-- `_execute_sql` (agent.py lines 610-647).  The actual SQLite execution
is the oracle `exec`, called on `sql_clean` exactly when every guard
check passes. -/
def _execute_sql (sql : String) (exec : String → ExecResult) : SqlResult :=
  let sql_clean := pyStrip sql
  let sql_upper := pyUpper sql_clean
  if ¬ (pyStartsWith sql_upper "SELECT" || pyStartsWith sql_upper "WITH") then
    { rows := [], error := some "Only SELECT/WITH queries are allowed" }
  else
    let tokens := sqlTokens sql_upper
    let blocked := blockedIn tokens
    if blocked ≠ [] then
      { rows := [],
        error := some ("Query contains forbidden keyword(s): " ++
                       String.intercalate ", " (sortStrings blocked)) }
    else if "SETTINGS" ∈ tokens then
      { rows := [], error := some "Access to the settings table is not permitted" }
    else
      wrapExec (exec sql_clean)

/-! ## Write whitelist — `_execute_write` (agent.py lines 203-230) -/

/-- A Python value as it appears in tool-call argument dicts. -/
inductive PyVal where
  | str (s : String)
  | num (q : ℚ)
  | bool (b : Bool)
  | noneV
deriving DecidableEq, Repr

/-- Python truthiness of a `PyVal` (`if not item_id`, `if content`, ...). -/
def PyVal.truthy : PyVal → Bool
  | .str s => s ≠ ""
  | .num q => q ≠ 0
  | .bool b => b
  | .noneV => false

/-- `dict.get(key)` on an association list: `noneV` models an absent key,
matching Python's `None` default. -/
def dictGet (d : List (String × PyVal)) (key : String) : PyVal :=
  match d.lookup key with
  | some v => v
  | none => .noneV

/-- A database mutation `_execute_write` can perform: the
`UPDATE reminders SET completed = 1` of the `complete_reminder` special
case, or the `INSERT INTO {table}` built from the data dict. -/
inductive WriteOp where
  | completeReminder (id : PyVal)
  | insertRow (table : String) (data : List (String × PyVal))
deriving DecidableEq, Repr

/-- Mirror of the dict `_execute_write` returns. -/
structure WriteResult where
  ok : Bool := false
  error : Option String := none
  id : Option PyVal := none
  table : Option String := none
  action : Option String := none
deriving DecidableEq, Repr

/-- `_execute_write` (agent.py lines 203-230).  `connect` is the
`sqlite3.connect` oracle (its exception text when the open fails) and
`db` the oracle executing a mutation (`.ok lastrowid` or the raised
exception's text).  The second component lists the mutations actually
issued to the database, in order. -/
def _execute_write (table : String) (data : List (String × PyVal))
    (connect : Except String Unit) (db : WriteOp → Except String Int) :
    WriteResult × List WriteOp :=
  match connect with
  | .error e => ({ error := some e }, [])
  | .ok _ =>
    if table = "complete_reminder" then
      let item_id := dictGet data "id"
      if ¬ item_id.truthy then
        ({ error := some "id required to complete reminder" }, [])
      else
        match db (.completeReminder item_id) with
        | .ok _ => ({ ok := true, action := some "completed", id := some item_id },
                    [.completeReminder item_id])
        | .error e => ({ error := some e }, [.completeReminder item_id])
    else if table ∈ ["reminders", "spend_log", "notes"] then
      match db (.insertRow table data) with
      | .ok newId => ({ ok := true, id := some (.num newId), table := some table },
                      [.insertRow table data])
      | .error e => ({ error := some e }, [.insertRow table data])
    else
      ({ error := some ("Write to \x27" ++ table ++ "\x27 is not permitted") }, [])

/-! ## Interpreter validation — `_validate_interpreter_output`
(agent.py lines 1063-1091) -/

/-- `_VALID_INTENTS`: whitelisted intent values — anything outside this
set is forced to `"unknown"`. -/
def _VALID_INTENTS : List String :=
  ["spend_total", "spend_compare", "spend_trend", "inbox_count", "urgent_emails",
   "events_upcoming", "free_slots", "overdue_tasks", "streak_status",
   "category_breakdown", "multi", "unknown"]

/-- Python `str(x)` for the value in the `intent` slot. -/
def pyStr : PyVal → String
  | .str s => s
  | .num q => toString q
  | .bool b => if b then "True" else "False"
  | .noneV => "None"

/-- Python `bool(x)`. -/
def pyBool (v : PyVal) : Bool := v.truthy

/-- The cleaned record `_validate_interpreter_output` hands to the router:
the input dict after intent whitelisting, confidence clamping and
optional-field defaulting. -/
structure InterpRecord where
  intent : String
  confidence : ℚ
  domain : PyVal
  action : PyVal
  needs_narrative : Bool
deriving DecidableEq, Repr

/-- `_validate_interpreter_output` (agent.py lines 1063-1091).
`toFloat` is the oracle for Python's `float(...)` builtin (`none` when
the call raises `TypeError`/`ValueError`); on a `PyVal.num` it is pinned
down by the hypotheses of the theorems below.  Returns `none` exactly
when a required key is missing ("unrecoverable" output).  The `filters`
dict, defaulted to `\x7b\x7d` and otherwise carried through untouched,
is not represented in the record. -/
def _validate_interpreter_output (toFloat : PyVal → Option ℚ)
    (parsed : List (String × PyVal)) : Option InterpRecord :=
  if ¬ ((parsed.lookup "intent").isSome ∧ (parsed.lookup "confidence").isSome) then
    none
  else
    let intent0 := pyStrip (pyStr (dictGet parsed "intent"))
    let intent := if intent0 ∈ _VALID_INTENTS then intent0 else "unknown"
    let confidence :=
      match toFloat (dictGet parsed "confidence") with
      | some conf => max 0 (min 1 conf)
      | none => 0
    let domain :=
      match parsed.lookup "domain" with
      | some v => v
      | none => .str "unknown"
    let action :=
      match parsed.lookup "action" with
      | some v => v
      | none => .str "unknown"
    let needs_narrative :=
      match parsed.lookup "needs_narrative" with
      | some v => pyBool v
      | none => true
    some { intent := intent, confidence := confidence, domain := domain,
           action := action, needs_narrative := needs_narrative }

/-! ## Follow-up detection — `_is_followup_message`
(agent.py lines 1094-1105) -/

/-- `_FOLLOWUP_PRONOUNS`: pronoun / follow-up words that should trigger
intent reuse. -/
def _FOLLOWUP_PRONOUNS : List String :=
  ["it", "that", "those", "them", "there", "this", "same", "more", "else",
   "also", "similar", "related", "then", "again"]

/-- The characters of Python's `w.strip("?.,!")`. -/
def followupPunct (c : Char) : Bool :=
  c = '?' || c = '.' || c = ',' || c = '!'

/-- Python `w.strip("?.,!")`: drop those characters from both ends. -/
def stripPunct (w : String) : String :=
  ((w.toList.dropWhile followupPunct).reverse.dropWhile followupPunct).reverse.asString

/-- The word list `_is_followup_message` builds:
`[w.strip("?.,!").lower() for w in message.strip().split() if w.strip("?.,!")]`. -/
def followupWords (message : String) : List String :=
  ((pySplitWs (pyStrip message)).filter (fun w => stripPunct w ≠ "")).map
    (fun w => pyLower (stripPunct w))

/-- `_is_followup_message` (agent.py lines 1094-1105). -/
def _is_followup_message (message : String) : Bool :=
  let words := followupWords message
  if words.length ≤ 2 ∧ words.any (fun w => w ∈ _FOLLOWUP_PRONOUNS) then
    true
  else if words.length ≤ 2 then
    true
  else
    false

/-! ## Period resolution — `_period_where_spend`
(agent.py lines 1221-1234) -/

/-- The `today` window: `occurred_at` at or after the start of today. -/
def todayWindow : String :=
  "occurred_at >= strftime(\x27%s\x27, date(\x27now\x27))"

/-- The `week` window: `occurred_at` within the trailing 7 days. -/
def weekWindow : String :=
  "occurred_at >= strftime(\x27%s\x27, date(\x27now\x27,\x27-7 days\x27))"

/-- The `last_month` window: `occurred_at` within the previous
calendar month. -/
def lastMonthWindow : String :=
  "occurred_at >= strftime(\x27%s\x27, date(\x27now\x27,\x27start of month\x27,\x27-1 month\x27)) " ++
  "AND occurred_at < strftime(\x27%s\x27, date(\x27now\x27,\x27start of month\x27))"

/-- The `year` window: `occurred_at` since the start of the year. -/
def yearWindow : String :=
  "occurred_at >= strftime(\x27%s\x27, date(\x27now\x27,\x27start of year\x27))"

/-- The `month` window (also the `else` branch): `occurred_at` since the
start of the current month. -/
def monthWindow : String :=
  "occurred_at >= strftime(\x27%s\x27, date(\x27now\x27,\x27start of month\x27))"

/-- `_period_where_spend` (agent.py lines 1221-1234).  `(period or
"month").lower()` then the five-way dispatch; the `month` token itself
reaches the `else` branch, which is the month window. -/
def _period_where_spend (period : String) : String :=
  let p := pyLower (if period = "" then "month" else period)
  if p = "today" then todayWindow
  else if p = "week" then weekWindow
  else if p = "last_month" then lastMonthWindow
  else if p = "year" then yearWindow
  else monthWindow

/-! ## Spend outlier check — `_check_spend_outlier`
(agent.py lines 1237-1263) -/

/-- Decimal rendering of a rounded rational, standing in for Python's
`f"\x7bvalue:,.0f\x7d"` in the warning texts (the thousands grouping is
abstracted away; the theorems only inspect presence and non-emptiness of
the warning, which the fixed `"⚠ ₹"` prefix settles). -/
def fmtMoney (q : ℚ) : String :=
  toString (round q : ℤ)

/-- Rendering of a one-decimal float format `:.1f`, used for the
relative-outlier ratio and the percent change. -/
def fmtOneDec (q : ℚ) : String :=
  let n : ℤ := round (q * 10)
  toString (n / 10) ++ "." ++ toString (n % 10)

/-- Rendering of `f"\x7bvalue / avg:.1f\x7d"` in the relative warning. -/
def fmtRatio (value avg : ℚ) : String :=
  fmtOneDec (value / avg)

/-- The `period in ("today", "week", "month")` gate of the relative
check. -/
def relPeriodOk (period : String) : Bool :=
  period = "today" || period = "week" || period = "month"

/-- `_check_spend_outlier` (agent.py lines 1237-1263).  `hist` models the
rolling-average query against the connection: `none` when `conn is None`,
when the query raised (swallowed by the bare `except`), or when no row
came back; `some avg` is `float(avg_row[0] or 0)` (so a NULL average is
`some 0`). -/
def _check_spend_outlier (value : ℚ) (period : String) (hist : Option ℚ) :
    Option String :=
  if value > 1000000 then
    some ("⚠ ₹" ++ fmtMoney value ++ " looks unusually high — verify data integrity.")
  else
    match hist, relPeriodOk period with
    | some avg, true =>
        if avg > 0 ∧ value > avg * 5 then
          some ("⚠ This is " ++ fmtRatio value avg ++
                "× higher than your 3-month average (₹" ++ fmtMoney avg ++ "/mo).")
        else none
    | _, _ => none

/-! ## Response composer — `_compose_response`
(agent.py lines 1415-1545) -/

/-- Python `int(x)` on a float: truncation toward zero. -/
def pyInt (q : ℚ) : ℤ :=
  if 0 ≤ q then ⌊q⌋ else ⌈q⌉

/-- Python `a or b` on an optional string `a` (absent or empty means
falsy, so `b` is used). -/
def pyOrStr (a : Option String) (b : String) : String :=
  match a with
  | some s => if s = "" then b else s
  | none => b

/-- One row of `r["months"]` in the `spend_trend` payload. -/
structure MonthRow where
  month : String
  total : ℚ
deriving DecidableEq, Repr

/-- One row of `r["emails"]` in the `urgent_emails` payload. -/
structure EmailRow where
  from_name : Option String := none
  from_email : Option String := none
  subject : Option String := none
deriving DecidableEq, Repr

/-- One row of `r["events"]` in the `events_upcoming` payload. -/
structure EventRow where
  start : Option String := none
  title : Option String := none
  location : Option String := none
deriving DecidableEq, Repr

/-- One row of `r["overdue"]` in the `overdue_tasks` payload. -/
structure TaskRow where
  category : Option String := none
  title : Option String := none
  due : Option String := none
deriving DecidableEq, Repr

/-- One row of `r["habits"]` in the `streak_status` payload. -/
structure HabitRow where
  name : String
  done : ℤ := 0
deriving DecidableEq, Repr

/-- One row of `r["categories"]` in the `category_breakdown` payload. -/
structure CatRow where
  category : String
  total : ℚ
  cnt : ℤ
deriving DecidableEq, Repr

/-- The deterministic result dict `r` that `_route_deterministic` hands
to `_compose_response`, with the dict's `.get` defaults as field
defaults. -/
structure DetResult where
  intent : String := ""
  total : ℚ := 0
  cnt : ℤ := 0
  period : String := "month"
  category : Option String := none
  outlier_warning : Option String := none
  this_month : ℚ := 0
  last_month : ℚ := 0
  diff : ℚ := 0
  pct_change : Option ℚ := none
  months : List MonthRow := []
  unread : ℚ := 0
  emails : List EmailRow := []
  events : List EventRow := []
  days : ℤ := 7
  overdue : List TaskRow := []
  habits : List HabitRow := []
  date : String := "today"
  categories : List CatRow := []
deriving DecidableEq, Repr

/-- The period label dict
`\x7b"today": "today", "week": "this week", ...\x7d.get(period, period)`. -/
def periodLabel (p : String) : String :=
  if p = "today" then "today"
  else if p = "week" then "this week"
  else if p = "month" then "this month"
  else if p = "last_month" then "last month"
  else if p = "year" then "this year"
  else p

/-- `("\n" + r.get("outlier_warning", "")) if r.get("outlier_warning") else ""`. -/
def warnSuffix (w : Option String) : String :=
  match w with
  | some s => if s = "" then "" else "\n" ++ s
  | none => ""

/-- `'s' if n != 1 else ''`. -/
def pluralS (n : ℤ) : String :=
  if n ≠ 1 then "s" else ""

/-- `_compose_response` (agent.py lines 1415-1545): pure template-driven
rendering keyed on the intent tag; the final fall-through returns the
empty string. -/
def _compose_response (r : DetResult) : String :=
  if r.intent = "spend_total" then
    let lbl := periodLabel r.period
    if r.total = 0 then
      "[STATUS] No spend recorded " ++ lbl ++
        (match r.category with
         | some c => if c = "" then "" else " for " ++ c
         | none => "") ++ "."
    else
      let on_cat := match r.category with
        | some c => if c = "" then "" else " on " ++ c
        | none => ""
      "[STATUS] ₹" ++ fmtMoney r.total ++ on_cat ++ " " ++ lbl ++
        " across " ++ toString r.cnt ++ " transaction" ++ pluralS r.cnt ++ "." ++
        warnSuffix r.outlier_warning ++ "\n\n" ++
        "FOLLOW_UP: What\x27s the breakdown by category? | " ++
        "Compare to last month? | Which merchants were the biggest?"
  else if r.intent = "spend_compare" then
    if r.last_month = 0 ∧ r.this_month = 0 then
      "[STATUS] No spend data for either month."
    else
      let direction := if r.diff > 0 then "↑" else "↓"
      let pct_str := match r.pct_change with
        | some pct => " (" ++ fmtOneDec |pct| ++ "%)"
        | none => ""
      let verdict := if r.diff > 0 then "over last month" else "under last month"
      "[ACTION] This month ₹" ++ fmtMoney r.this_month ++ " · Last month ₹" ++
        fmtMoney r.last_month ++ "\n" ++ direction ++ " ₹" ++ fmtMoney |r.diff| ++
        pct_str ++ " " ++ verdict ++ "." ++ warnSuffix r.outlier_warning ++ "\n\n" ++
        "FOLLOW_UP: Which category drove the increase? | " ++
        "Show me the trend | What am I spending most on?"
  else if r.intent = "spend_trend" then
    if r.months = [] then
      "[STATUS] No spending data in the last 3 months."
    else
      let parts := r.months.map (fun m => m.month ++ ": ₹" ++ fmtMoney m.total)
      "[FYI] 3-month trend:\n" ++
        String.intercalate "\n" (parts.map (fun p => "• " ++ p)) ++ "\n\n" ++
        "FOLLOW_UP: Explain what changed | " ++
        "Break down by category | Compare to budget?"
  else if r.intent = "inbox_count" then
    let total := pyInt r.total
    let unread := pyInt r.unread
    if total = 0 then
      "[STATUS] Inbox cache is empty — sync emails first."
    else
      "[STATUS] " ++ toString unread ++ " unread of " ++ toString total ++
        " cached emails.\n\n" ++
        "FOLLOW_UP: Show urgent ones | " ++
        "Any emails from a specific sender? | Summarize what\x27s new?"
  else if r.intent = "urgent_emails" then
    if r.emails = [] then
      "[STATUS] No unread emails in cache."
    else
      let lines := String.intercalate "\n" ((r.emails.take 5).map (fun e =>
        "• " ++ pyOrStr e.from_name (e.from_email.getD "?") ++ ": " ++
          e.subject.getD "(no subject)"))
      "[ACTION] " ++ toString r.emails.length ++ " unread:\n" ++ lines ++ "\n\n" ++
        "FOLLOW_UP: Draft a reply to one? | " ++
        "Mark all as read? | Any from a specific sender?"
  else if r.intent = "events_upcoming" then
    let days := r.days
    if r.events = [] then
      "[STATUS] Nothing on calendar in the next " ++ toString days ++ " days."
    else
      let lines := String.intercalate "\n" ((r.events.take 8).map (fun e =>
        "• " ++ ((pyOrStr e.start "").take 16).replace "T" " " ++ " — " ++
          e.title.getD "?" ++
          (match e.location with
           | some loc => if loc = "" then "" else " @ " ++ loc
           | none => "")))
      "[STATUS] Next " ++ toString days ++ " days:\n" ++ lines ++ "\n\n" ++
        "FOLLOW_UP: What am I free tomorrow? | " ++
        "Prep notes for any of these? | Any conflicts?"
  else if r.intent = "overdue_tasks" then
    if r.overdue = [] then
      "[STATUS] No overdue tasks — clear."
    else
      let lines := String.intercalate "\n" ((r.overdue.take 8).map (fun t =>
        "• [" ++ t.category.getD "?" ++ "] " ++ t.title.getD "?" ++
          " (due " ++ (pyOrStr t.due "").take 10 ++ ")"))
      "[RISK] " ++ toString r.overdue.length ++ " overdue task" ++
        pluralS r.overdue.length ++ ":\n" ++ lines ++ "\n\n" ++
        "FOLLOW_UP: Mark one done? | " ++
        "What\x27s highest priority? | Reschedule any?"
  else if r.intent = "streak_status" then
    if r.habits = [] then
      "[STATUS] No habits tracked yet."
    else
      let done := r.habits.filter (fun h => h.done = 1)
      let pending := r.habits.filter (fun h => ¬ (h.done = 1))
      let lines :=
        (if done ≠ [] then
          ["✓ Done: " ++ String.intercalate ", " (done.map (fun h => h.name))]
         else []) ++
        (if pending ≠ [] then
          ["✗ Pending: " ++ String.intercalate ", " (pending.map (fun h => h.name))]
         else [])
      "[STATUS] Habits " ++ r.date ++ ":\n" ++ String.intercalate "\n" lines ++
        "\n\n" ++
        "FOLLOW_UP: Log one as done? | " ++
        "Show streak history? | Any at risk?"
  else if r.intent = "category_breakdown" then
    let lbl := periodLabel r.period
    if r.categories = [] then
      "[STATUS] No spend data " ++ lbl ++ "."
    else
      let lines := String.intercalate "\n" ((r.categories.take 8).map (fun c =>
        "• " ++ c.category ++ ": ₹" ++ fmtMoney c.total ++
          " (" ++ toString c.cnt ++ " txn" ++ pluralS c.cnt ++ ")"))
      "[FYI] Spending " ++ lbl ++ " by category:\n" ++ lines ++ "\n\n" ++
        "FOLLOW_UP: Drill into a specific category? | " ++
        "Compare to last month? | Any over budget?"
  else
    ""

/-! ## `agent_chat` routing gate (agent.py lines 1604-1650)

The interpreter gate of `agent_chat`: with a validated record in hand it
either answers deterministically (router hit and non-empty composition)
or falls through to the agentic loop with a slim history window and a
narrative token budget.  The router's database work is the oracle
`det` (the result of `_route_deterministic`, `none` on a routing miss);
composition is the `_compose_response` embedded above. -/

/-- What `agent_chat` does after the interpreter gate: the deterministic
return `\x7b"text", "model": "deterministic", "iterations": 0\x7d`, or the
fall-through to the model-driven loop (with its history-window flag and
narrative token budget). -/
inductive RouteOutcome where
  | deterministic (text : String) (model : String) (iterations : ℕ)
  | agentic (slim_context : Bool) (narrative_budget : ℕ)
deriving DecidableEq, Repr

/-- The `_narrative_budget` assignment of `agent_chat`: defaults to 1024,
re-assigned on the needs-narrative fall-through (2000 for `multi`,
800 otherwise). -/
def narrativeBudget (d : InterpRecord) : ℕ :=
  if d.needs_narrative then (if d.intent = "multi" then 2000 else 800) else 1024

/-- The routing gate of `agent_chat` (agent.py lines 1604-1650).
`intentData` is `_call_interpreter`'s validated record (`none` on
classifier failure or bypass); `det` is `_route_deterministic`'s result. -/
def agentChatRoute (intentData : Option InterpRecord) (det : Option DetResult) :
    RouteOutcome :=
  match intentData with
  | none => .agentic false 1024
  | some d =>
    if d.confidence ≥ 0.75 ∧ d.needs_narrative = false ∧ d.intent ≠ "unknown" then
      match det with
      | some r =>
        let resp := _compose_response r
        if resp ≠ "" then .deterministic resp "deterministic" 0
        else .agentic true (narrativeBudget d)
      | none => .agentic true (narrativeBudget d)
    else
      .agentic true (narrativeBudget d)

/-! ## `agent_chat` agentic loop (agent.py lines 1683-1755) -/

/-- `MAX_ITERATIONS`: the round bound of the agentic loop. -/
def MAX_ITERATIONS : ℕ := 3

/-- The fixed fallback phrase used when the forced final call yields
empty content. -/
def fallbackPhrase : String :=
  "I analyzed the data but couldn\x27t form a clear answer. Try rephrasing?"

/-- One model response inside the loop: the `"error"` key of
`_call_ollama`'s result, the assistant content (`.get("content", "") or
""` already applied) and the requested tool calls (names, after argument
parsing). -/
structure ModelResp where
  error : Option String := none
  content : String := ""
  tool_calls : List String := []
deriving DecidableEq, Repr

/-- What `agent_chat` returns from the loop region. -/
structure LoopResult where
  text : String
  tools_used : List String
  iterations : ℕ
  error : Option String := none
deriving DecidableEq, Repr

/-- The `for iteration in range(MAX_ITERATIONS)` body of `agent_chat`,
unrolled on the remaining round count.  `oracle i` is the `_call_ollama`
response of round `i` (with tools offered); `finalCall b` is the content
of the forced tool-free call issued with `max_tokens = b` once the round
budget is exhausted. -/
def agentChatLoopAux (oracle : ℕ → ModelResp) (finalCall : ℕ → String)
    (budget : ℕ) : (remaining : ℕ) → (i : ℕ) → (tools : List String) → LoopResult
  | 0, i, tools =>
      let content := finalCall budget
      { text := if content ≠ "" then pyStrip content else fallbackPhrase,
        tools_used := tools, iterations := i }
  | remaining + 1, i, tools =>
      let resp := oracle i
      match resp.error with
      | some e => { text := "", tools_used := tools, iterations := i + 1,
                    error := some e }
      | none =>
        if resp.tool_calls = [] then
          { text := pyStrip resp.content, tools_used := tools, iterations := i + 1 }
        else
          agentChatLoopAux oracle finalCall budget remaining (i + 1)
            (tools ++ resp.tool_calls)

/-- The loop region of `agent_chat` (agent.py lines 1683-1755): up to
`MAX_ITERATIONS` tool rounds, then the forced tool-free finish. -/
def agentChatLoop (oracle : ℕ → ModelResp) (finalCall : ℕ → String)
    (budget : ℕ) : LoopResult :=
  agentChatLoopAux oracle finalCall budget MAX_ITERATIONS 0 []

/-! ## Theorems -/

/-- The payload `_execute_sql` returns when one of the three guard checks
fires, written with the same cascade as the source. -/
def rejectResult (sql : String) : SqlResult :=
  let sql_upper := pyUpper (pyStrip sql)
  if ¬ (pyStartsWith sql_upper "SELECT" || pyStartsWith sql_upper "WITH") then
    { rows := [], error := some "Only SELECT/WITH queries are allowed" }
  else
    let tokens := sqlTokens sql_upper
    let blocked := blockedIn tokens
    if blocked ≠ [] then
      { rows := [],
        error := some ("Query contains forbidden keyword(s): " ++
                       String.intercalate ", " (sortStrings blocked)) }
    else
      { rows := [], error := some "Access to the settings table is not permitted" }

/-- `_execute_sql` factors through the guard decision: a rejected query
yields the reject payload (independently of the database), an accepted
one yields the wrapped execution of the stripped query. -/
theorem execute_sql_factors (sql : String) (exec : String → ExecResult) :
    _execute_sql sql exec =
      if guardRejects sql then rejectResult sql else wrapExec (exec (pyStrip sql)) := by
  unfold _execute_sql guardRejects rejectResult
  by_cases h1 : (pyStartsWith (pyUpper (pyStrip sql)) "SELECT" ||
      pyStartsWith (pyUpper (pyStrip sql)) "WITH") = true
  · by_cases h2 : blockedIn (sqlTokens (pyUpper (pyStrip sql))) = []
    · by_cases h3 : "SETTINGS" ∈ sqlTokens (pyUpper (pyStrip sql))
      · simp [h1, h2, h3]
      · simp [h1, h2, h3]
    · simp [h1, h2]
  · simp [h1]

/-- The reject payload always carries an error message and an empty row set. -/
theorem rejectResult_error (sql : String) :
    (rejectResult sql).error.isSome ∧ (rejectResult sql).rows = [] := by
  unfold rejectResult
  dsimp only
  split_ifs <;> simp

/-- A database oracle returning no rows, for concrete instantiations. -/
def execEmpty : String → ExecResult := fun _ => .ok []

/-- A database oracle raising `no such table: missing`. -/
def execBoom : String → ExecResult := fun _ => .err "no such table: missing"

/-- A database oracle returning one `sqlite_master` row. -/
def execMaster : String → ExecResult := fun _ => .ok [[("name", "reminders")]]

/-- C1: for every SQL string, whenever the guard decision fires (the
normalized form does not begin with `SELECT`/`WITH`, a blocked-keyword
token occurs, or the `SETTINGS` token occurs — all computed on the
uppercased query, hence casing-independent), `_execute_sql` returns a
descriptive error with an empty row set and the result does not depend
on the database at all (it was not executed); and when the guard passes
but execution raises, the exception text comes back as a structured
error payload instead of propagating. -/
theorem execute_sql_guard_spec (sql : String) (exec : String → ExecResult) :
    (guardRejects sql = true →
      (_execute_sql sql exec).error.isSome ∧ (_execute_sql sql exec).rows = [] ∧
      ∀ g : String → ExecResult, _execute_sql sql g = _execute_sql sql exec) ∧
    (guardRejects sql = false → ∀ e, exec (pyStrip sql) = ExecResult.err e →
      _execute_sql sql exec = { rows := [], error := some e }) := by
  constructor
  · intro h
    have hr : ∀ g : String → ExecResult, _execute_sql sql g = rejectResult sql := by
      intro g
      rw [execute_sql_factors]
      simp [h]
    rw [hr exec]
    exact ⟨(rejectResult_error sql).1, (rejectResult_error sql).2,
           fun g => hr g⟩
  · intro h e he
    rw [execute_sql_factors]
    simp [h, he, wrapExec]

/-- Witness for C1: `DROP TABLE reminders` is rejected with empty rows,
and a passing query whose execution raises comes back as a structured
error. -/
theorem execute_sql_guard_spec_witness :
    ((_execute_sql "DROP TABLE reminders" execEmpty).error.isSome ∧
      (_execute_sql "DROP TABLE reminders" execEmpty).rows = []) ∧
    _execute_sql "SELECT * FROM missing" execBoom =
      { rows := [], error := some "no such table: missing" } := by
  refine ⟨⟨?_, ?_⟩, ?_⟩
  · exact ((execute_sql_guard_spec "DROP TABLE reminders" execEmpty).1 (by decide)).1
  · exact ((execute_sql_guard_spec "DROP TABLE reminders" execEmpty).1 (by decide)).2.1
  · exact (execute_sql_guard_spec "SELECT * FROM missing" execBoom).2 (by decide)
      "no such table: missing" rfl

/-- C10: the guard never consults the read whitelist `_ALLOWED_TABLES`:
whenever the three token checks pass, `_execute_sql` is exactly the
wrapped execution of the stripped query, whatever tables it references;
in particular a `SELECT` on `sqlite_master`, which is not a whitelisted
table, passes the guard. -/
theorem execute_sql_ignores_read_whitelist :
    "sqlite_master" ∉ _ALLOWED_TABLES ∧
    guardRejects "SELECT * FROM sqlite_master" = false ∧
    ∀ (sql : String) (exec : String → ExecResult), guardRejects sql = false →
      _execute_sql sql exec = wrapExec (exec (pyStrip sql)) := by
  refine ⟨by decide, by decide, ?_⟩
  intro sql exec h
  rw [execute_sql_factors]
  simp [h]

/-- Witness for C10: the non-whitelisted `sqlite_master` query reaches
the database and its row comes back. -/
theorem execute_sql_ignores_read_whitelist_witness :
    _execute_sql "SELECT * FROM sqlite_master" execMaster =
      wrapExec (execMaster (pyStrip "SELECT * FROM sqlite_master")) :=
  execute_sql_ignores_read_whitelist.2.2 "SELECT * FROM sqlite_master" execMaster
    (by decide)

/-- C2: excluding the `complete_reminder` special case, `_execute_write`
issues an `INSERT` only for tables in the explicit write whitelist
`\x7breminders, spend_log, notes\x7d`; for any other table it returns a
descriptive error payload and performs no database mutation (nothing is
raised: the embedding is total). -/
theorem execute_write_whitelist_spec (table : String) (data : List (String × PyVal))
    (connect : Except String Unit) (db : WriteOp → Except String Int) :
    (∀ t d, WriteOp.insertRow t d ∈ (_execute_write table data connect db).2 →
      t ∈ ["reminders", "spend_log", "notes"]) ∧
    (table ≠ "complete_reminder" → table ∉ ["reminders", "spend_log", "notes"] →
      (_execute_write table data connect db).1.error.isSome ∧
      (_execute_write table data connect db).1.ok = false ∧
      (_execute_write table data connect db).2 = []) := by
  constructor
  · intro t d hmem
    unfold _execute_write at hmem
    cases connect with
    | error e => simp at hmem
    | ok u =>
      by_cases h1 : table = "complete_reminder"
      · by_cases h2 : (dictGet data "id").truthy
        · cases hdb : db (.completeReminder (dictGet data "id")) <;>
            simp [h1, h2, hdb] at hmem
        · simp [h1, h2] at hmem
      · by_cases h3 : table ∈ ["reminders", "spend_log", "notes"]
        · cases hdb : db (.insertRow table data) <;>
            simp [h1, h3, hdb] at hmem <;>
            [exact hmem.1 ▸ h3; exact hmem.1 ▸ h3]
        · simp [h1, h3] at hmem
  · intro h1 h3
    unfold _execute_write
    cases connect with
    | error e => simp
    | ok u => simp [h1, h3]

/-- Witness for C2: a write aimed at the protected `settings` table is
rejected with an error payload and no mutation reaches the database. -/
theorem execute_write_whitelist_spec_witness :
    ((_execute_write "settings" [("gmail_token", .str "x")] (.ok ())
        (fun _ => .ok 1)).1.error.isSome ∧
      (_execute_write "settings" [("gmail_token", .str "x")] (.ok ())
        (fun _ => .ok 1)).1.ok = false ∧
      (_execute_write "settings" [("gmail_token", .str "x")] (.ok ())
        (fun _ => .ok 1)).2 = []) :=
  (execute_write_whitelist_spec "settings" [("gmail_token", .str "x")] (.ok ())
    (fun _ => .ok 1)).2 (by decide) (by decide)

/-- The `float(...)` builtin restricted to the numeric values, used to
instantiate the validation theorem. -/
def pyFloatNum : PyVal → Option ℚ
  | .num q => some q
  | .bool b => some (if b then 1 else 0)
  | _ => none

/-- C3: on any input dict holding an `intent` and a `confidence` key,
`_validate_interpreter_output` returns a record whose confidence lies in
`[0,1]` — `0` when `float(...)` fails, the clamp of the parsed value
otherwise — and whose intent is in `_VALID_INTENTS`, with anything
outside the whitelist rewritten to `"unknown"` and whitelist members
(`"unknown"` and `"multi"` included) passed through unchanged. -/
theorem validate_interpreter_output_spec
    (toFloat : PyVal → Option ℚ) (parsed : List (String × PyVal))
    (hi : (parsed.lookup "intent").isSome)
    (hc : (parsed.lookup "confidence").isSome) :
    (_validate_interpreter_output toFloat parsed).isSome ∧
    ∀ out, _validate_interpreter_output toFloat parsed = some out →
      0 ≤ out.confidence ∧ out.confidence ≤ 1 ∧
      (toFloat (dictGet parsed "confidence") = none → out.confidence = 0) ∧
      (∀ q, toFloat (dictGet parsed "confidence") = some q →
        out.confidence = max 0 (min 1 q)) ∧
      out.intent ∈ _VALID_INTENTS ∧
      (pyStrip (pyStr (dictGet parsed "intent")) ∉ _VALID_INTENTS →
        out.intent = "unknown") ∧
      (pyStrip (pyStr (dictGet parsed "intent")) ∈ _VALID_INTENTS →
        out.intent = pyStrip (pyStr (dictGet parsed "intent"))) := by
  constructor
  · unfold _validate_interpreter_output
    simp [hi, hc]
  · intro out h
    unfold _validate_interpreter_output at h
    rw [if_neg (by simp [hi, hc])] at h
    dsimp only at h
    obtain rfl := (Option.some.inj h).symm
    dsimp only
    refine ⟨?_, ?_, ?_, ?_, ?_, ?_, ?_⟩
    · cases htf : toFloat (dictGet parsed "confidence") <;>
        simp [htf, le_max_left]
    · cases htf : toFloat (dictGet parsed "confidence") <;>
        simp [htf, max_le_iff, min_le_left]
    · intro htf
      simp [htf]
    · intro q htf
      simp [htf]
    · by_cases hm : pyStrip (pyStr (dictGet parsed "intent")) ∈ _VALID_INTENTS
      · rw [if_pos hm]
        exact hm
      · rw [if_neg hm]
        decide
    · intro hm
      rw [if_neg hm]
    · intro hm
      rw [if_pos hm]

/-- Witness for C3: an out-of-whitelist intent with an out-of-range
numeric confidence is forced to `"unknown"` with confidence clamped. -/
theorem validate_interpreter_output_spec_witness :
    (_validate_interpreter_output pyFloatNum
        [("intent", .str "hack_the_db"), ("confidence", .num 7)]).isSome ∧
    ∀ out, _validate_interpreter_output pyFloatNum
        [("intent", .str "hack_the_db"), ("confidence", .num 7)] = some out →
      0 ≤ out.confidence ∧ out.confidence ≤ 1 ∧
      (pyFloatNum (dictGet [("intent", .str "hack_the_db"), ("confidence", .num 7)]
          "confidence") = none → out.confidence = 0) ∧
      (∀ q, pyFloatNum (dictGet [("intent", .str "hack_the_db"),
          ("confidence", .num 7)] "confidence") = some q →
        out.confidence = max 0 (min 1 q)) ∧
      out.intent ∈ _VALID_INTENTS ∧
      (pyStrip (pyStr (dictGet [("intent", .str "hack_the_db"),
          ("confidence", .num 7)] "intent")) ∉ _VALID_INTENTS →
        out.intent = "unknown") ∧
      (pyStrip (pyStr (dictGet [("intent", .str "hack_the_db"),
          ("confidence", .num 7)] "intent")) ∈ _VALID_INTENTS →
        out.intent = pyStrip (pyStr (dictGet [("intent", .str "hack_the_db"),
          ("confidence", .num 7)] "intent"))) :=
  validate_interpreter_output_spec pyFloatNum
    [("intent", .str "hack_the_db"), ("confidence", .num 7)] (by decide) (by decide)

/-- A high-confidence non-narrative record, for concrete instantiations. -/
def interpHigh : InterpRecord :=
  { intent := "spend_total", confidence := 0.9, domain := .str "expense",
    action := .str "query", needs_narrative := false }

/-- A low-confidence record, for concrete instantiations. -/
def interpLow : InterpRecord :=
  { intent := "spend_total", confidence := 0.5, domain := .str "expense",
    action := .str "query", needs_narrative := false }

/-- A deterministic `spend_total` result with no rows, for concrete
instantiations. -/
def detZero : DetResult :=
  { intent := "spend_total" }

/-- C4: `agent_chat` answers on the deterministic path — a response
tagged `model = "deterministic"` with zero iterations — only when the
validated record has confidence ≥ 0.75, `needs_narrative` false and a
known intent; whenever any of the three conditions fails, control falls
through to the agentic loop. -/
theorem agent_chat_deterministic_gate
    (intentData : Option InterpRecord) (det : Option DetResult) :
    (∀ text model iters,
      agentChatRoute intentData det = .deterministic text model iters →
      model = "deterministic" ∧ iters = 0 ∧
      ∃ d, intentData = some d ∧ d.confidence ≥ 0.75 ∧
        d.needs_narrative = false ∧ d.intent ≠ "unknown") ∧
    (∀ d, intentData = some d →
      (d.confidence < 0.75 ∨ d.needs_narrative = true ∨ d.intent = "unknown") →
      ∃ slim budget, agentChatRoute intentData det = .agentic slim budget) := by
  constructor
  · intro text model iters h
    unfold agentChatRoute at h
    cases intentData with
    | none => simp at h
    | some d =>
      by_cases hcond : d.confidence ≥ 0.75 ∧ d.needs_narrative = false ∧
          d.intent ≠ "unknown"
      · cases det with
        | none => simp [hcond] at h
        | some r =>
          by_cases hresp : _compose_response r ≠ ""
          · simp only [if_pos hcond, if_pos hresp] at h
            exact ⟨(RouteOutcome.deterministic.injEq _ _ _ _ _ _).mp h |>.2.1.symm,
                   (RouteOutcome.deterministic.injEq _ _ _ _ _ _).mp h |>.2.2.symm,
                   d, rfl, hcond.1, hcond.2.1, hcond.2.2⟩
          · simp [hcond, hresp] at h
      · simp [hcond] at h
  · intro d hd hfail
    subst hd
    unfold agentChatRoute
    have hcond : ¬ (d.confidence ≥ 0.75 ∧ d.needs_narrative = false ∧
        d.intent ≠ "unknown") := by
      rcases hfail with h | h | h
      · exact fun hc => absurd hc.1 (not_le.mpr h)
      · exact fun hc => by simp [h] at hc
      · exact fun hc => hc.2.2 h
    exact ⟨true, narrativeBudget d, by
      dsimp only
      rw [if_neg hcond]⟩

/-- Witness for C4: a 0.9-confidence `spend_total` record routes
deterministically (model tag and zero iterations forced), and a
0.5-confidence record falls through to the agentic loop. -/
theorem agent_chat_deterministic_gate_witness :
    ("deterministic" = "deterministic" ∧ (0 : ℕ) = 0 ∧
      ∃ d, (some interpHigh = some d) ∧ d.confidence ≥ 0.75 ∧
        d.needs_narrative = false ∧ d.intent ≠ "unknown") ∧
    (∃ slim budget, agentChatRoute (some interpLow) (some detZero) =
      .agentic slim budget) := by
  constructor
  · refine (agent_chat_deterministic_gate (some interpHigh) (some detZero)).1
      (_compose_response detZero) "deterministic" 0 ?_
    unfold agentChatRoute
    dsimp only
    rw [if_pos (⟨by norm_num [interpHigh], rfl, by decide⟩ :
      interpHigh.confidence ≥ 0.75 ∧ interpHigh.needs_narrative = false ∧
        interpHigh.intent ≠ "unknown")]
    rw [if_pos (by decide : _compose_response detZero ≠ "")]
  · exact (agent_chat_deterministic_gate (some interpLow) (some detZero)).2
      interpLow rfl (Or.inl (by norm_num [interpLow]))

/-- A model oracle that requests a tool call on every round. -/
def oracleAllTools : ℕ → ModelResp := fun _ => { tool_calls := ["execute_sql"] }

/-- A forced-finish oracle returning whitespace-only content. -/
def finalBlank : ℕ → String := fun _ => " "

/-- A forced-finish oracle returning a real answer. -/
def finalDone : ℕ → String := fun _ => "Here is the answer."

/-- Counterexample to C5 as stated: with a model that requests tools on
every round and a forced final call whose content is the single space
`" "` — a non-empty string, so the fixed fallback phrase is not used —
the loop returns the empty text, not a non-empty answer: the code only
substitutes the fallback when the final content is exactly empty, and
strips whitespace afterwards. -/
theorem agent_chat_loop_nonempty_counterexample :
    (∀ i, (oracleAllTools i).error = none ∧ (oracleAllTools i).tool_calls ≠ []) ∧
    finalBlank 1024 ≠ "" ∧
    (agentChatLoop oracleAllTools finalBlank 1024).text = "" := by
  exact ⟨fun i => ⟨rfl, List.cons_ne_nil _ _⟩, by decide, by decide⟩

/-- C5 (amended): with a model that requests tools on every round, the
loop terminates after exactly `MAX_ITERATIONS = 3` rounds and issues one
final tool-free call with the narrative token budget, returning that
call's stripped content when the content is non-empty and the fixed
fallback phrase (itself non-empty) when the content is empty — so the
returned text can be empty only when the final content is non-empty but
all whitespace. -/
theorem agent_chat_loop_spec (oracle : ℕ → ModelResp) (finalCall : ℕ → String)
    (budget : ℕ)
    (h : ∀ i, i < MAX_ITERATIONS → (oracle i).error = none ∧
      (oracle i).tool_calls ≠ []) :
    (agentChatLoop oracle finalCall budget).iterations = MAX_ITERATIONS ∧
    (agentChatLoop oracle finalCall budget).text =
      (if finalCall budget ≠ "" then pyStrip (finalCall budget)
       else fallbackPhrase) ∧
    (finalCall budget = "" →
      (agentChatLoop oracle finalCall budget).text = fallbackPhrase) ∧
    fallbackPhrase ≠ "" := by
  obtain ⟨e0, t0⟩ := h 0 (by decide)
  obtain ⟨e1, t1⟩ := h 1 (by decide)
  obtain ⟨e2, t2⟩ := h 2 (by decide)
  have hrun : agentChatLoop oracle finalCall budget =
      { text := if finalCall budget ≠ "" then pyStrip (finalCall budget)
                else fallbackPhrase,
        tools_used := (oracle 0).tool_calls ++ (oracle 1).tool_calls ++
          (oracle 2).tool_calls,
        iterations := 3 } := by
    unfold agentChatLoop MAX_ITERATIONS
    rw [agentChatLoopAux, e0, if_neg (by simpa using t0)]
    rw [agentChatLoopAux, e1, if_neg (by simpa using t1)]
    rw [agentChatLoopAux, e2, if_neg (by simpa using t2)]
    rw [agentChatLoopAux]
    simp [List.append_assoc]
  refine ⟨by rw [hrun]; rfl, by rw [hrun], ?_, by decide⟩
  intro hempty
  rw [hrun]
  simp [hempty]

/-- Witness for C5: the all-tools model with a real final answer yields
that answer after exactly three rounds. -/
theorem agent_chat_loop_spec_witness :
    (agentChatLoop oracleAllTools finalDone 800).iterations = MAX_ITERATIONS ∧
    (agentChatLoop oracleAllTools finalDone 800).text =
      (if finalDone 800 ≠ "" then pyStrip (finalDone 800) else fallbackPhrase) ∧
    (finalDone 800 = "" →
      (agentChatLoop oracleAllTools finalDone 800).text = fallbackPhrase) ∧
    fallbackPhrase ≠ "" :=
  agent_chat_loop_spec oracleAllTools finalDone 800
    (fun _ _ => ⟨rfl, List.cons_ne_nil _ _⟩)

/-- A non-empty string stays non-empty after appending on the right. -/
theorem append_ne_empty_left (s t : String) (hs : s ≠ "") : s ++ t ≠ "" := by
  intro he
  apply hs
  have hd := congrArg String.data he
  rw [String.data_append] at hd
  rcases List.append_eq_nil.mp hd with ⟨h1, _⟩
  cases s
  simp_all [String.ext_iff]

/-- C6: the outlier check on a spend total (at the default period
`"month"`) warns — with a non-empty string — whenever the value exceeds
the absolute cap of 1,000,000, or whenever rolling-average history is
available with a positive monthly average that the value exceeds
fivefold; and it returns nothing when the value is within the cap and no
comparison history exists (absent, or a zero average). -/
theorem check_spend_outlier_spec (value : ℚ) (hist : Option ℚ) :
    (value > 1000000 →
      ∃ w, _check_spend_outlier value "month" hist = some w ∧ w ≠ "") ∧
    (∀ avg, hist = some avg → 0 < avg → avg * 5 < value →
      ∃ w, _check_spend_outlier value "month" hist = some w ∧ w ≠ "") ∧
    (value ≤ 1000000 → (hist = none ∨ hist = some 0) →
      _check_spend_outlier value "month" hist = none) := by
  have hper : relPeriodOk "month" = true := by decide
  refine ⟨?_, ?_, ?_⟩
  · intro habs
    have h : _check_spend_outlier value "month" hist =
        some ("⚠ ₹" ++ fmtMoney value ++
          " looks unusually high — verify data integrity.") := by
      unfold _check_spend_outlier
      rw [if_pos habs]
    exact ⟨_, h, append_ne_empty_left _ _ (append_ne_empty_left _ _ (by decide))⟩
  · intro avg havg hpos hrel
    subst havg
    by_cases habs : value > 1000000
    · have h : _check_spend_outlier value "month" (some avg) =
          some ("⚠ ₹" ++ fmtMoney value ++
            " looks unusually high — verify data integrity.") := by
        unfold _check_spend_outlier
        rw [if_pos habs]
      exact ⟨_, h, append_ne_empty_left _ _ (append_ne_empty_left _ _ (by decide))⟩
    · have h : _check_spend_outlier value "month" (some avg) =
          some ("⚠ This is " ++ fmtRatio value avg ++
            "× higher than your 3-month average (₹" ++ fmtMoney avg ++ "/mo).") := by
        unfold _check_spend_outlier
        rw [if_neg habs, hper]
        dsimp only
        rw [if_pos ⟨hpos, hrel⟩]
      refine ⟨_, h, ?_⟩
      exact append_ne_empty_left _ _ (append_ne_empty_left _ _
        (append_ne_empty_left _ _ (append_ne_empty_left _ _ (by decide))))
  · intro hle hhist
    unfold _check_spend_outlier
    rw [if_neg (not_lt.mpr hle)]
    rcases hhist with h | h <;> subst h
    · rw [hper]
    · rw [hper]
      dsimp only
      rw [if_neg (fun hc => lt_irrefl (0 : ℚ) hc.1)]

/-- Witness for C6: a 2,000,000 total warns on the absolute cap; 60,000
against a 10,000 monthly average warns on the relative check; 50,000
with no history stays silent. -/
theorem check_spend_outlier_spec_witness :
    (∃ w, _check_spend_outlier 2000000 "month" none = some w ∧ w ≠ "") ∧
    (∃ w, _check_spend_outlier 60000 "month" (some 10000) = some w ∧ w ≠ "") ∧
    _check_spend_outlier 50000 "month" none = none := by
  refine ⟨?_, ?_, ?_⟩
  · exact (check_spend_outlier_spec 2000000 none).1 (by decide)
  · exact (check_spend_outlier_spec 60000 (some 10000)).2.1 10000 rfl (by decide)
      (by norm_num)
  · exact (check_spend_outlier_spec 50000 none).2.2 (by decide) (Or.inl rfl)

/-- The intent tags `_compose_response` has a template for. -/
def supportedComposeIntents : List String :=
  ["spend_total", "spend_compare", "spend_trend", "inbox_count", "urgent_emails",
   "events_upcoming", "overdue_tasks", "streak_status", "category_breakdown"]

/-- "Zero matching rows" for each supported composer intent: zero totals,
empty lists, empty inbox — the conditions guarding the no-data branch of
each template. -/
def zeroData (r : DetResult) : Prop :=
  (r.intent = "spend_total" ∧ r.total = 0) ∨
  (r.intent = "spend_compare" ∧ r.last_month = 0 ∧ r.this_month = 0) ∨
  (r.intent = "spend_trend" ∧ r.months = []) ∨
  (r.intent = "inbox_count" ∧ pyInt r.total = 0) ∨
  (r.intent = "urgent_emails" ∧ r.emails = []) ∨
  (r.intent = "events_upcoming" ∧ r.events = []) ∨
  (r.intent = "overdue_tasks" ∧ r.overdue = []) ∨
  (r.intent = "streak_status" ∧ r.habits = []) ∨
  (r.intent = "category_breakdown" ∧ r.categories = [])

/-- C7: on every supported intent with zero matching rows the composer
returns a non-empty, user-legible no-data sentence; on every intent tag
outside the supported set it returns exactly the empty string. -/
theorem compose_response_spec (r : DetResult) :
    (zeroData r → _compose_response r ≠ "") ∧
    (r.intent ∉ supportedComposeIntents → _compose_response r = "") := by
  constructor
  · intro hz
    rcases hz with ⟨hi, hz⟩ | ⟨hi, hz1, hz2⟩ | ⟨hi, hz⟩ | ⟨hi, hz⟩ | ⟨hi, hz⟩ |
      ⟨hi, hz⟩ | ⟨hi, hz⟩ | ⟨hi, hz⟩ | ⟨hi, hz⟩
    · unfold _compose_response
      rw [hi]
      simp [hz]
      exact append_ne_empty_left _ _ (append_ne_empty_left _ _
        (append_ne_empty_left _ _ (by decide)))
    · unfold _compose_response
      rw [hi]
      simp [hz1, hz2]
    · unfold _compose_response
      rw [hi]
      simp [hz]
    · unfold _compose_response
      rw [hi]
      simp [hz]
    · unfold _compose_response
      rw [hi]
      simp [hz]
    · unfold _compose_response
      rw [hi]
      simp [hz]
      exact append_ne_empty_left _ _ (append_ne_empty_left _ _ (by decide))
    · unfold _compose_response
      rw [hi]
      simp [hz]
    · unfold _compose_response
      rw [hi]
      simp [hz]
    · unfold _compose_response
      rw [hi]
      simp [hz]
      exact append_ne_empty_left _ _ (append_ne_empty_left _ _ (by decide))
  · intro hm
    simp only [supportedComposeIntents, List.mem_cons, List.not_mem_nil,
      or_false, not_or] at hm
    obtain ⟨h1, h2, h3, h4, h5, h6, h7, h8, h9⟩ := hm
    unfold _compose_response
    rw [if_neg h1, if_neg h2, if_neg h3, if_neg h4, if_neg h5, if_neg h6,
        if_neg h7, if_neg h8, if_neg h9]

/-- Witness for C7: an empty streak-status payload composes to a
non-empty no-data sentence, and the `free_slots` intent — which has no
template — composes to the empty string. -/
theorem compose_response_spec_witness :
    _compose_response { intent := "streak_status" } ≠ "" ∧
    _compose_response { intent := "free_slots" } = "" := by
  constructor
  · exact (compose_response_spec { intent := "streak_status" }).1
      (Or.inr (Or.inr (Or.inr (Or.inr (Or.inr (Or.inr (Or.inr (Or.inl
        ⟨rfl, rfl⟩))))))))
  · exact (compose_response_spec { intent := "free_slots" }).2 (by decide)

/-- Counterexample to C8 as stated: `"that spending report from
yesterday"` carries the listed pronoun `"that"` as its first token, yet
the classifier returns `false` — the pronoun check is evaluated only for
messages of at most two words, so a pronoun within the first two tokens
of a longer message never classifies it as a follow-up. -/
theorem is_followup_pronoun_counterexample :
    ((followupWords "that spending report from yesterday").take 2).any
      (fun w => w ∈ _FOLLOWUP_PRONOUNS) = true ∧
    _is_followup_message "that spending report from yesterday" = false := by
  exact ⟨by decide, by decide⟩

/-- C8 (amended): a message of at most two whitespace-delimited tokens
is always classified as a follow-up; a message of more than two words is
never one — the pronoun/continuation check only applies inside the
two-token case, so a long, specific, multi-word question is never a
follow-up. -/
theorem is_followup_spec (m : String) :
    ((pySplitWs (pyStrip m)).length ≤ 2 → _is_followup_message m = true) ∧
    (2 < (followupWords m).length → _is_followup_message m = false) := by
  constructor
  · intro h
    have hw : (followupWords m).length ≤ 2 := by
      calc (followupWords m).length
          = ((pySplitWs (pyStrip m)).filter
              (fun w => stripPunct w ≠ "")).length := by
            unfold followupWords
            rw [List.length_map]
        _ ≤ (pySplitWs (pyStrip m)).length := List.length_filter_le _ _
        _ ≤ 2 := h
    unfold _is_followup_message
    dsimp only
    by_cases ha : (followupWords m).length ≤ 2 ∧
        (followupWords m).any (fun w => w ∈ _FOLLOWUP_PRONOUNS)
    · rw [if_pos ha]
    · rw [if_neg ha, if_pos hw]
  · intro h
    unfold _is_followup_message
    dsimp only
    rw [if_neg (fun hc => absurd hc.1 (not_le.mpr h)), if_neg (not_le.mpr h)]

/-- Witness for C8: `"it"` is a follow-up; a long specific question is
not. -/
theorem is_followup_spec_witness :
    _is_followup_message "it" = true ∧
    _is_followup_message "what did I spend on food in March 2025" = false :=
  ⟨(is_followup_spec "it").1 (by decide),
   (is_followup_spec "what did I spend on food in March 2025").2 (by decide)⟩

/-- C9: `_period_where_spend` is a pure total function taking the five
named period tokens to their closed-form `occurred_at` windows —
`month`'s window being the default branch — and every other input,
the empty string (Python's falsy `None`/`""`) included, to the month
window. -/
theorem period_where_spend_spec :
    _period_where_spend "today" = todayWindow ∧
    _period_where_spend "week" = weekWindow ∧
    _period_where_spend "month" = monthWindow ∧
    _period_where_spend "last_month" = lastMonthWindow ∧
    _period_where_spend "year" = yearWindow ∧
    ∀ p : String, pyLower (if p = "" then "month" else p) ∉
        (["today", "week", "last_month", "year"] : List String) →
      _period_where_spend p = monthWindow := by
  refine ⟨by decide, by decide, by decide, by decide, by decide, ?_⟩
  intro p h
  simp only [List.mem_cons, List.not_mem_nil, or_false, not_or] at h
  obtain ⟨h1, h2, h3, h4⟩ := h
  unfold _period_where_spend
  dsimp only
  rw [if_neg h1, if_neg h2, if_neg h3, if_neg h4]

/-- Witness for C9: an unrecognized period name falls back to the month
window. -/
theorem period_where_spend_spec_witness :
    _period_where_spend "foobar" = monthWindow :=
  period_where_spend_spec.2.2.2.2.2 "foobar" (by decide)

end Aria
